import Mathlib

/-!
Shallow embedding of the todo-service HTTP handlers (src/app/main.py).

The service is a Flask application over a MongoDB collection "todos".
We model:
  * JSON values (`JVal`), with BSON ObjectId values modelled as natural
    numbers (`JVal.oid`); the external string form of an ObjectId is its
    decimal representation and parsing accepts exactly decimal numerals,
    standing in for the 24-hex-digit rule of real BSON ObjectIds.
  * documents as association lists `Doc = List (String × JVal)` with
    Python-dict assignment/deletion semantics (`setVal`, `delKey`);
  * the collection plus the store-assigned fresh identifier as `DB`;
  * the pymongo single-document operations used by the handlers
    (`insert_one`, `find_one`, `update_one` with a "$set" document,
    `delete_one`) with their matched/modified/deleted counts;
  * each Flask handler as a pure function from the request pieces and
    the database state to an HTTP `Response` (status code and JSON body)
    and the successor database state;
  * the startup retry loop `init_db` over an oracle giving the outcome
    of each connect-and-ping attempt.

Driver/network failures other than ObjectId parse errors are outside the
state model: the handlers below are the behaviour of the code when every
issued store operation succeeds, which is the reachable-state semantics
the claims quantify over (claims about store failure condition on it).
-/

set_option autoImplicit false

namespace TodoService

/-- JSON-like values as exchanged in request/response bodies and stored in
the collection.  `oid` is a store-assigned BSON ObjectId, modelled as a
natural number. -/
inductive JVal where
  | null
  | bool (b : Bool)
  | int (n : Int)
  | str (s : String)
  | oid (n : Nat)
  | arr (elems : List JVal)
  | obj (fields : List (String × JVal))
deriving Repr

mutual

/-- Decidable structural equality on JSON values (the deriving handler
does not cover this nested inductive). -/
def deqVal : (a b : JVal) → Decidable (a = b)
  | JVal.null, JVal.null => isTrue rfl
  | JVal.bool a, JVal.bool b =>
      if h : a = b then isTrue (by rw [h]) else isFalse (by simp [h])
  | JVal.int a, JVal.int b =>
      if h : a = b then isTrue (by rw [h]) else isFalse (by simp [h])
  | JVal.str a, JVal.str b =>
      if h : a = b then isTrue (by rw [h]) else isFalse (by simp [h])
  | JVal.oid a, JVal.oid b =>
      if h : a = b then isTrue (by rw [h]) else isFalse (by simp [h])
  | JVal.arr a, JVal.arr b =>
      match deqArr a b with
      | isTrue h => isTrue (by rw [h])
      | isFalse h => isFalse (by simp [h])
  | JVal.obj a, JVal.obj b =>
      match deqObj a b with
      | isTrue h => isTrue (by rw [h])
      | isFalse h => isFalse (by simp [h])
  | JVal.null, JVal.bool _ => isFalse nofun
  | JVal.null, JVal.int _ => isFalse nofun
  | JVal.null, JVal.str _ => isFalse nofun
  | JVal.null, JVal.oid _ => isFalse nofun
  | JVal.null, JVal.arr _ => isFalse nofun
  | JVal.null, JVal.obj _ => isFalse nofun
  | JVal.bool _, JVal.null => isFalse nofun
  | JVal.bool _, JVal.int _ => isFalse nofun
  | JVal.bool _, JVal.str _ => isFalse nofun
  | JVal.bool _, JVal.oid _ => isFalse nofun
  | JVal.bool _, JVal.arr _ => isFalse nofun
  | JVal.bool _, JVal.obj _ => isFalse nofun
  | JVal.int _, JVal.null => isFalse nofun
  | JVal.int _, JVal.bool _ => isFalse nofun
  | JVal.int _, JVal.str _ => isFalse nofun
  | JVal.int _, JVal.oid _ => isFalse nofun
  | JVal.int _, JVal.arr _ => isFalse nofun
  | JVal.int _, JVal.obj _ => isFalse nofun
  | JVal.str _, JVal.null => isFalse nofun
  | JVal.str _, JVal.bool _ => isFalse nofun
  | JVal.str _, JVal.int _ => isFalse nofun
  | JVal.str _, JVal.oid _ => isFalse nofun
  | JVal.str _, JVal.arr _ => isFalse nofun
  | JVal.str _, JVal.obj _ => isFalse nofun
  | JVal.oid _, JVal.null => isFalse nofun
  | JVal.oid _, JVal.bool _ => isFalse nofun
  | JVal.oid _, JVal.int _ => isFalse nofun
  | JVal.oid _, JVal.str _ => isFalse nofun
  | JVal.oid _, JVal.arr _ => isFalse nofun
  | JVal.oid _, JVal.obj _ => isFalse nofun
  | JVal.arr _, JVal.null => isFalse nofun
  | JVal.arr _, JVal.bool _ => isFalse nofun
  | JVal.arr _, JVal.int _ => isFalse nofun
  | JVal.arr _, JVal.str _ => isFalse nofun
  | JVal.arr _, JVal.oid _ => isFalse nofun
  | JVal.arr _, JVal.obj _ => isFalse nofun
  | JVal.obj _, JVal.null => isFalse nofun
  | JVal.obj _, JVal.bool _ => isFalse nofun
  | JVal.obj _, JVal.int _ => isFalse nofun
  | JVal.obj _, JVal.str _ => isFalse nofun
  | JVal.obj _, JVal.oid _ => isFalse nofun
  | JVal.obj _, JVal.arr _ => isFalse nofun

/-- Decidable equality on lists of JSON values. -/
def deqArr : (a b : List JVal) → Decidable (a = b)
  | [], [] => isTrue rfl
  | [], _ :: _ => isFalse nofun
  | _ :: _, [] => isFalse nofun
  | x :: xs, y :: ys =>
      match deqVal x y with
      | isTrue h1 =>
          match deqArr xs ys with
          | isTrue h2 => isTrue (by rw [h1, h2])
          | isFalse h2 => isFalse (by simp [h2])
      | isFalse h1 => isFalse (by simp [h1])

/-- Decidable equality on association lists of JSON values. -/
def deqObj : (a b : List (String × JVal)) → Decidable (a = b)
  | [], [] => isTrue rfl
  | [], _ :: _ => isFalse nofun
  | _ :: _, [] => isFalse nofun
  | (k, v) :: xs, (l, w) :: ys =>
      if hk : k = l then
        match deqVal v w with
        | isTrue h1 =>
            match deqObj xs ys with
            | isTrue h2 => isTrue (by rw [hk, h1, h2])
            | isFalse h2 => isFalse (by simp [h2])
        | isFalse h1 => isFalse (by simp [h1])
      else isFalse (by simp [hk])

end

instance : DecidableEq JVal := deqVal

/-- A BSON document / Python dict: an association list of string keys to
JSON values, insertion-ordered, keys unique in all reachable states. -/
abbrev Doc := List (String × JVal)

/-- Dictionary lookup: value at the first occurrence of `key`. -/
def getVal : Doc → String → Option JVal
  | [], _ => none
  | (k, v) :: rest, key => if k = key then some v else getVal rest key

/-- Python-dict assignment `d[key] = v`: replace in place if the key is
present, append otherwise. MongoDB "$set" on a single field is the same. -/
def setVal : Doc → String → JVal → Doc
  | [], key, v => [(key, v)]
  | (k, w) :: rest, key, v =>
      if k = key then (k, v) :: rest else (k, w) :: setVal rest key v

/-- Python-dict deletion `del d[key]`: removes the first binding of `key`. -/
def delKey : Doc → String → Doc
  | [], _ => []
  | (k, v) :: rest, key => if k = key then rest else (k, v) :: delKey rest key

/-- Apply a MongoDB "$set" document: set every listed field in order. -/
def applySet (d : Doc) (fields : Doc) : Doc :=
  fields.foldl (fun acc kv => setVal acc kv.1 kv.2) d

/-- The database state: the "todos" collection in natural scan order plus
the next store-assigned ObjectId. -/
structure DB where
  todos : List Doc
  nextId : Nat
deriving DecidableEq, Repr

/-- An HTTP response: status code and JSON body. -/
structure Response where
  status : Nat
  body : JVal
deriving DecidableEq, Repr

/-- Does document `d` match the filter on field "_id" with value `oid`? -/
def isMatch (oid : Nat) (d : Doc) : Bool :=
  getVal d "_id" = some (JVal.oid oid)

/-- pymongo `insert_one`: the store assigns a fresh ObjectId as "_id"
(added to the supplied fields) and appends the document; returns the new
state and the inserted id. -/
def insert_one (db : DB) (fields : Doc) : DB × Nat :=
  (⟨db.todos ++ [setVal fields "_id" (JVal.oid db.nextId)], db.nextId + 1⟩,
   db.nextId)

/-- pymongo `find_one` with filter on "_id": first matching document. -/
def find_one (db : DB) (oid : Nat) : Option Doc :=
  db.todos.find? (isMatch oid)

/-- `update_one` on the underlying list: rewrite the first matching
document with the "$set" fields; returns the new list, the matched count
and the modified count (a matched document left identical by the "$set"
counts as matched but not modified, as in MongoDB). -/
def updateList (oid : Nat) (fields : Doc) : List Doc → List Doc × Nat × Nat
  | [] => ([], 0, 0)
  | d :: ds =>
      if isMatch oid d then
        let d2 := applySet d fields
        (d2 :: ds, 1, if d2 = d then 0 else 1)
      else
        let r := updateList oid fields ds
        (d :: r.1, r.2.1, r.2.2)

/-- pymongo `update_one` with filter on "_id" and a "$set" document:
new state, matched count, modified count. -/
def update_one (db : DB) (oid : Nat) (fields : Doc) : DB × Nat × Nat :=
  let r := updateList oid fields db.todos
  (⟨r.1, db.nextId⟩, r.2.1, r.2.2)

/-- `delete_one` on the underlying list: remove the first matching
document; returns the new list and the deleted count. -/
def deleteList (oid : Nat) : List Doc → List Doc × Nat
  | [] => ([], 0)
  | d :: ds =>
      if isMatch oid d then (ds, 1)
      else
        let r := deleteList oid ds
        (d :: r.1, r.2)

/-- pymongo `delete_one` with filter on "_id": new state, deleted count. -/
def delete_one (db : DB) (oid : Nat) : DB × Nat :=
  let r := deleteList oid db.todos
  (⟨r.1, db.nextId⟩, r.2)

/-- Accumulate a decimal numeral; fails on any non-digit character. -/
def digitsToNat : List Char → Nat → Option Nat
  | [], acc => some acc
  | c :: cs, acc =>
      if c.isDigit then digitsToNat cs (acc * 10 + (c.toNat - 48)) else none

/-- `ObjectId(todo_id)`: parse the path parameter as a store identifier;
`none` models the InvalidId exception raised by the bson library (under
the decimal modelling of ObjectIds, a numeral parses and anything else is
rejected). -/
def parseObjectId (s : String) : Option Nat :=
  match s.data with
  | [] => none
  | cs => digitsToNat cs 0

/-- `str(objectId)`: external string form of a store identifier. -/
def oidStr (n : Nat) : String :=
  toString n

/-- Python `str` applied to a stored "_id" value.  In every reachable
state the "_id" value is an ObjectId, so only the `oid` case is exercised;
the remaining cases follow Python str conventions. -/
def idStr : JVal → String
  | JVal.oid n => oidStr n
  | JVal.str s => s
  | JVal.bool b => if b then "True" else "False"
  | JVal.int n => toString n
  | JVal.null => "None"
  | JVal.arr _ => "list"
  | JVal.obj _ => "dict"

/-- The identifier remap done by the list and get handlers:
`todo[id] = str(todo[_id]); del todo[_id]`.  `none` models the KeyError
raised when the document has no "_id" field (unreachable for stored
documents). -/
def remapDoc (d : Doc) : Option Doc :=
  (getVal d "_id").map (fun v => delKey (setVal d "id" (JVal.str (idStr v))) "_id")

/-- `jsonify` of an error dict together with an explicit status code. -/
def errResp (code : Nat) (msg : String) : Response :=
  ⟨code, JVal.obj [("error", JVal.str msg)]⟩

/-- `jsonify` of a message dict, default status 200. -/
def msgResp (msg : String) : Response :=
  ⟨200, JVal.obj [("message", JVal.str msg)]⟩

/-- Handler POST /todos (`create_todo` in main.py).  The request body is
`none` when absent/unparseable (Flask `request.json` being None); a
present body is a JSON object.  Python truthiness: `not data` holds for
None and for the empty dict. -/
def create_todo (body : Option Doc) (db : DB) : Response × DB :=
  match body with
  | none => (errResp 400 "Missing \"task\" field", db)
  | some data =>
      if data = [] then (errResp 400 "Missing \"task\" field", db)
      else
        match getVal data "task" with
        | none => (errResp 400 "Missing \"task\" field", db)
        | some task =>
            let r := insert_one db [("task", task), ("completed", JVal.bool false)]
            (⟨201, JVal.obj [("id", JVal.str (oidStr r.2)),
                             ("task", task),
                             ("completed", JVal.bool false)]⟩, r.1)

/-- The remap loop of the list handler applied to every fetched document;
`none` models the KeyError raised on the first document lacking "_id". -/
def remapAll : List Doc → Option (List Doc)
  | [] => some []
  | d :: ds =>
      match remapDoc d, remapAll ds with
      | some r, some rs => some (r :: rs)
      | _, _ => none

/-- Handler GET /todos (`get_all_todos` in main.py): fetch every document
and remap "_id" to the external string "id". -/
def get_all_todos (db : DB) : Response :=
  match remapAll db.todos with
  | some docs => ⟨200, JVal.arr (docs.map JVal.obj)⟩
  | none => errResp 500 "KeyError: _id"

/-- Handler GET /todos/(todo_id) (`get_todo` in main.py).  A malformed
identifier raises inside the try block and surfaces as HTTP 500. -/
def get_todo (todo_id : String) (db : DB) : Response :=
  match parseObjectId todo_id with
  | none => errResp 500 "is not a valid ObjectId"
  | some oid =>
      match find_one db oid with
      | some todo =>
          match remapDoc todo with
          | some t => ⟨200, JVal.obj t⟩
          | none => errResp 500 "KeyError: _id"
      | none => errResp 404 "To-do item not found"

/-- The update document built by `update_todo`: the supplied subset of
the recognized fields "task" and "completed". -/
def updateFields (data : Doc) : Doc :=
  (match getVal data "task" with
   | some v => [("task", v)]
   | none => []) ++
  (match getVal data "completed" with
   | some v => [("completed", v)]
   | none => [])

/-- Handler PUT /todos/(todo_id) (`update_todo` in main.py).  Reports 404
whenever the modified count is zero, conflating a missing document with a
no-op update. -/
def update_todo (todo_id : String) (body : Option Doc) (db : DB) :
    Response × DB :=
  match body with
  | none => (errResp 400 "No data provided for update", db)
  | some data =>
      if data = [] then (errResp 400 "No data provided for update", db)
      else
        let uf := updateFields data
        if uf = [] then (errResp 400 "No valid fields to update", db)
        else
          match parseObjectId todo_id with
          | none => (errResp 500 "is not a valid ObjectId", db)
          | some oid =>
              let r := update_one db oid uf
              if r.2.2 = 0 then
                (errResp 404 "To-do item not found or no changes made", r.1)
              else (msgResp "To-do item updated successfully", r.1)

/-- Handler DELETE /todos/(todo_id) (`delete_todo` in main.py). -/
def delete_todo (todo_id : String) (db : DB) : Response × DB :=
  match parseObjectId todo_id with
  | none => (errResp 500 "is not a valid ObjectId", db)
  | some oid =>
      let r := delete_one db oid
      if r.2 = 0 then (errResp 404 "To-do item not found", r.1)
      else (msgResp "To-do item deleted successfully", r.1)

/-- Handler GET /healthz (`health_check` in main.py). -/
def health_check : Response :=
  ⟨200, JVal.obj [("status", JVal.str "ok")]⟩

/-- The body of `init_db`: `retries` attempts remain, `attempt` is the
zero-based index of the next connect-and-ping attempt, `slept` the
time-units slept so far.  `ping i` is the outcome of attempt `i`.  On
success returns the number of attempts used and the time slept before
success; on exhaustion returns (as the raised exception) the total time
slept.  The code sleeps 5 time-units after every failed attempt, the
last one included. -/
def initDbLoop (ping : Nat → Bool) (attempt : Nat) :
    Nat → Nat → Except Nat (Nat × Nat)
  | 0, slept => Except.error slept
  | retries + 1, slept =>
      if ping attempt then Except.ok (attempt + 1, slept)
      else initDbLoop ping (attempt + 1) retries (slept + 5)

/-- `init_db` in main.py: 10 attempts, 5 time-units of sleep after each
failure. -/
def init_db (ping : Nat → Bool) : Except Nat (Nat × Nat) :=
  initDbLoop ping 0 10 0

/-- Creating a batch of todos, each via the create handler with the
supplied task value. -/
def createAll (ts : List JVal) (db : DB) : DB :=
  ts.foldl (fun s t => (create_todo (some [("task", t)]) s).2) db

/-! ## Support lemmas -/

theorem create_todo_step (t : JVal) (db : DB) :
    (create_todo (some [("task", t)]) db).2 =
      ⟨db.todos ++ [[("task", t), ("completed", JVal.bool false),
                     ("_id", JVal.oid db.nextId)]],
       db.nextId + 1⟩ := rfl

theorem getVal_nil (key : String) : getVal [] key = none := rfl

theorem updateList_of_find?_none (oid : Nat) (uf : Doc) (l : List Doc)
    (h : l.find? (isMatch oid) = none) :
    updateList oid uf l = (l, 0, 0) := by
  induction l with
  | nil => rfl
  | cons d ds ih =>
      by_cases hd : isMatch oid d
      · rw [List.find?_cons_of_pos _ hd] at h
        exact absurd h (by simp)
      · rw [List.find?_cons_of_neg _ hd] at h
        simp [updateList, hd, ih h]

theorem updateList_of_find?_noop (oid : Nat) (uf : Doc) (l : List Doc) (d : Doc)
    (h : l.find? (isMatch oid) = some d) (heq : applySet d uf = d) :
    updateList oid uf l = (l, 1, 0) := by
  induction l with
  | nil => simp [List.find?] at h
  | cons e es ih =>
      by_cases he : isMatch oid e
      · rw [List.find?_cons_of_pos _ he] at h
        obtain rfl : e = d := by injection h
        simp [updateList, he, heq]
      · rw [List.find?_cons_of_neg _ he] at h
        simp [updateList, he, ih h]

theorem initDbLoop_all_fail (ping : Nat → Bool) (r a s : Nat)
    (h : ∀ i, a ≤ i → i < a + r → ping i = false) :
    initDbLoop ping a r s = Except.error (s + 5 * r) := by
  induction r generalizing a s with
  | zero => simp [initDbLoop]
  | succ n ih =>
      have ha : ping a = false := h a le_rfl (by omega)
      have hrest : ∀ i, a + 1 ≤ i → i < (a + 1) + n → ping i = false :=
        fun i h1 h2 => h i (by omega) (by omega)
      rw [initDbLoop, ha]
      simp only [Bool.false_eq_true, if_false]
      rw [ih (a + 1) (s + 5) hrest]
      have : s + 5 + 5 * n = s + 5 * (n + 1) := by ring
      rw [this]

theorem initDbLoop_first_success (ping : Nat → Bool) (r a s k : Nat)
    (hk : a ≤ k) (hlt : k < a + r)
    (hf : ∀ i, a ≤ i → i < k → ping i = false) (ht : ping k = true) :
    initDbLoop ping a r s = Except.ok (k + 1, s + 5 * (k - a)) := by
  induction r generalizing a s with
  | zero => omega
  | succ n ih =>
      by_cases hak : a = k
      · subst hak
        rw [initDbLoop, ht]
        simp
      · have hpa : ping a = false := hf a le_rfl (by omega)
        rw [initDbLoop, hpa]
        simp only [Bool.false_eq_true, if_false]
        rw [ih (a + 1) (s + 5) (by omega) (by omega)
            (fun i h1 h2 => hf i (by omega) h2)]
        have : s + 5 + 5 * (k - (a + 1)) = s + 5 * (k - a) := by omega
        rw [this]

theorem deleteList_of_find?_none (oid : Nat) (l : List Doc)
    (h : l.find? (isMatch oid) = none) :
    deleteList oid l = (l, 0) := by
  induction l with
  | nil => rfl
  | cons d ds ih =>
      by_cases hd : isMatch oid d
      · rw [List.find?_cons_of_pos _ hd] at h
        exact absurd h (by simp)
      · rw [List.find?_cons_of_neg _ hd] at h
        simp [deleteList, hd, ih h]

theorem deleteList_of_find?_some (oid : Nat) (l : List Doc) (d : Doc)
    (h : l.find? (isMatch oid) = some d)
    (huniq : (l.filter (isMatch oid)).length ≤ 1) :
    (deleteList oid l).2 = 1 ∧ (deleteList oid l).1.length + 1 = l.length ∧
    (deleteList oid l).1.filter (isMatch oid) = [] := by
  induction l with
  | nil => simp [List.find?] at h
  | cons e es ih =>
      by_cases he : isMatch oid e
      · rw [List.filter_cons_of_pos he] at huniq
        have hfil : es.filter (isMatch oid) = [] := by
          rw [List.length_cons] at huniq
          exact List.length_eq_zero.mp (by omega)
        refine ⟨?_, ?_, ?_⟩ <;> simp [deleteList, he, hfil]
      · rw [List.find?_cons_of_neg _ he] at h
        rw [List.filter_cons_of_neg he] at huniq
        obtain ⟨h1, h2, h3⟩ := ih h huniq
        refine ⟨?_, ?_, ?_⟩
        · simpa [deleteList, he] using h1
        · have hstep : (deleteList oid (e :: es)).1 = e :: (deleteList oid es).1 := by
            simp [deleteList, he]
          rw [hstep, List.length_cons, List.length_cons]
          omega
        · simpa [deleteList, he, List.filter_cons_of_neg he] using h3

theorem getVal_setVal_ne (d : Doc) (key k : String) (v : JVal) (h : k ≠ key) :
    getVal (setVal d key v) k = getVal d k := by
  induction d with
  | nil => simp [setVal, getVal, Ne.symm h]
  | cons p rest ih =>
      obtain ⟨pk, pv⟩ := p
      by_cases hp : pk = key
      · subst hp
        simp [setVal, getVal, Ne.symm h]
      · by_cases hpk : pk = k
        · subst hpk
          simp [setVal, getVal, hp]
        · simp [setVal, getVal, hp, hpk, ih]

theorem getVal_applySet_not_mem (d : Doc) (fields : Doc) (k : String)
    (h : ∀ kv ∈ fields, kv.1 ≠ k) :
    getVal (applySet d fields) k = getVal d k := by
  induction fields generalizing d with
  | nil => rfl
  | cons kv rest ih =>
      have hstep : applySet d (kv :: rest) = applySet (setVal d kv.1 kv.2) rest :=
        rfl
      rw [hstep,
        ih (setVal d kv.1 kv.2) (fun x hx => h x (List.mem_cons_of_mem _ hx)),
        getVal_setVal_ne d kv.1 k kv.2 (Ne.symm (h kv (List.mem_cons_self _ _)))]

theorem updateFields_keys (data : Doc) :
    ∀ kv ∈ updateFields data, kv.1 = "task" ∨ kv.1 = "completed" := by
  intro kv hkv
  unfold updateFields at hkv
  rcases List.mem_append.mp hkv with h | h
  · cases ht : getVal data "task" <;> rw [ht] at h <;> simp_all
  · cases hc : getVal data "completed" <;> rw [hc] at h <;> simp_all

theorem updateFields_of_task_none (data : Doc)
    (hn : getVal data "task" = none) :
    ∀ kv ∈ updateFields data, kv.1 = "completed" := by
  intro kv hkv
  unfold updateFields at hkv
  rw [hn] at hkv
  rcases List.mem_append.mp hkv with h | h
  · simp at h
  · cases hc : getVal data "completed" <;> rw [hc] at h <;> simp_all

theorem updateFields_of_completed_none (data : Doc)
    (hn : getVal data "completed" = none) :
    ∀ kv ∈ updateFields data, kv.1 = "task" := by
  intro kv hkv
  unfold updateFields at hkv
  rw [hn] at hkv
  rcases List.mem_append.mp hkv with h | h
  · cases ht : getVal data "task" <;> rw [ht] at h <;> simp_all
  · simp at h

theorem updateList_split (oid : Nat) (uf : Doc) (l : List Doc) (d : Doc)
    (h : l.find? (isMatch oid) = some d) :
    ∃ l₁ l₂, l = l₁ ++ d :: l₂ ∧ (∀ e ∈ l₁, isMatch oid e = false) ∧
      (updateList oid uf l).1 = l₁ ++ applySet d uf :: l₂ := by
  induction l with
  | nil => simp [List.find?] at h
  | cons e es ih =>
      by_cases he : isMatch oid e
      · rw [List.find?_cons_of_pos _ he] at h
        obtain rfl : e = d := by injection h
        refine ⟨[], es, rfl, by simp, ?_⟩
        simp [updateList, he]
      · rw [List.find?_cons_of_neg _ he] at h
        obtain ⟨l₁, l₂, hsplit, hl₁, hupd⟩ := ih h
        refine ⟨e :: l₁, l₂, by rw [hsplit]; rfl, ?_, ?_⟩
        · intro x hx
          rcases List.mem_cons.mp hx with rfl | hx
          · simpa using he
          · exact hl₁ x hx
        · simp [updateList, he, hupd]

theorem createAll_cons (t : JVal) (ts : List JVal) (db : DB) :
    createAll (t :: ts) db =
      createAll ts ((create_todo (some [("task", t)]) db).2) := rfl

theorem createAll_todos_length (ts : List JVal) (db : DB) :
    (createAll ts db).todos.length = db.todos.length + ts.length := by
  induction ts generalizing db with
  | nil => rfl
  | cons t ts ih =>
      rw [createAll_cons, ih, create_todo_step]
      simp only [List.length_append, List.length_cons, List.length_nil]
      omega

theorem createAll_wf (ts : List JVal) (db : DB)
    (h : ∀ d ∈ db.todos, d.map Prod.fst = ["task", "completed", "_id"]) :
    ∀ d ∈ (createAll ts db).todos,
      d.map Prod.fst = ["task", "completed", "_id"] := by
  induction ts generalizing db with
  | nil => exact h
  | cons t ts ih =>
      rw [createAll_cons]
      refine ih _ ?_
      rw [create_todo_step]
      intro d hd
      rcases List.mem_append.mp hd with hd | hd
      · exact h d hd
      · obtain rfl := List.mem_singleton.mp hd
        rfl

theorem doc_shape_of_keys (d : Doc)
    (h : d.map Prod.fst = ["task", "completed", "_id"]) :
    ∃ a b c, d = [("task", a), ("completed", b), ("_id", c)] := by
  rcases d with _ | ⟨⟨k1, v1⟩, _ | ⟨⟨k2, v2⟩, _ | ⟨⟨k3, v3⟩, _ | ⟨p4, rest⟩⟩⟩⟩
  · simp at h
  · simp at h
  · simp at h
  · simp only [List.map_cons, List.map_nil, List.cons.injEq, and_true] at h
    obtain ⟨rfl, rfl, rfl, -⟩ := h
    exact ⟨v1, v2, v3, rfl⟩
  · simp at h

theorem remapDoc_shape (a b c : JVal) :
    remapDoc [("task", a), ("completed", b), ("_id", c)] =
      some [("task", a), ("completed", b), ("id", JVal.str (idStr c))] := rfl

theorem remapAll_of_wf (l : List Doc)
    (h : ∀ d ∈ l, d.map Prod.fst = ["task", "completed", "_id"]) :
    ∃ res, remapAll l = some res ∧ res.length = l.length ∧
      ∀ r ∈ res, r.map Prod.fst = ["task", "completed", "id"] := by
  induction l with
  | nil => exact ⟨[], rfl, rfl, by simp⟩
  | cons d ds ih =>
      obtain ⟨res, hres, hlen, hkeys⟩ :=
        ih (fun x hx => h x (List.mem_cons_of_mem _ hx))
      obtain ⟨a, b, c, rfl⟩ := doc_shape_of_keys d (h d (List.mem_cons_self _ _))
      refine ⟨[("task", a), ("completed", b), ("id", JVal.str (idStr c))] :: res,
        ?_, ?_, ?_⟩
      · simp [remapAll, remapDoc_shape, hres]
      · simp [hlen]
      · intro r hr
        rcases List.mem_cons.mp hr with rfl | hr
        · rfl
        · exact hkeys r hr

/-! ## The claims -/

/-- Claim C2: a create request whose JSON body contains the key "task"
inserts exactly one document with the supplied task and completed=false,
and responds 201 with the created record whose id is the string form of
the store-assigned identifier. -/
theorem claim_C2 (data : Doc) (db : DB) (t : JVal)
    (ht : getVal data "task" = some t) :
    create_todo (some data) db =
      (⟨201, JVal.obj [("id", JVal.str (oidStr db.nextId)), ("task", t),
                       ("completed", JVal.bool false)]⟩,
       ⟨db.todos ++ [[("task", t), ("completed", JVal.bool false),
                      ("_id", JVal.oid db.nextId)]],
        db.nextId + 1⟩) := by
  have hne : data ≠ [] := by
    intro h
    rw [h, getVal_nil] at ht
    exact Option.noConfusion ht
  simp only [create_todo, if_neg hne, ht]
  rfl

theorem claim_C2_witness :
    create_todo (some [("task", JVal.str "buy milk")]) (DB.mk [] 0) =
      (⟨201, JVal.obj [("id", JVal.str (oidStr 0)),
                       ("task", JVal.str "buy milk"),
                       ("completed", JVal.bool false)]⟩,
       ⟨[[("task", JVal.str "buy milk"), ("completed", JVal.bool false),
          ("_id", JVal.oid 0)]], 1⟩) :=
  claim_C2 [("task", JVal.str "buy milk")] (DB.mk [] 0) (JVal.str "buy milk")
    (by decide)

/-- Claim C3 counterexample: a create request whose "task" value is the
empty string is NOT rejected: it returns 201 and inserts a document with
an empty task, refuting the invariant that task is never empty at
creation. -/
theorem claim_C3_cex :
    (create_todo (some [("task", JVal.str "")]) (DB.mk [] 0)).1.status = 201 ∧
    (create_todo (some [("task", JVal.str "")]) (DB.mk [] 0)).2.todos =
      [[("task", JVal.str ""), ("completed", JVal.bool false),
        ("_id", JVal.oid 0)]] := by
  decide

/-- Claim C3 (amended): create performs no emptiness check on the task
value: a create request whose "task" value is the empty string succeeds
with 201 and inserts a document whose task is the empty string. -/
theorem claim_C3 (db : DB) :
    (create_todo (some [("task", JVal.str "")]) db).1.status = 201 ∧
    (create_todo (some [("task", JVal.str "")]) db).2.todos =
      db.todos ++ [[("task", JVal.str ""), ("completed", JVal.bool false),
                    ("_id", JVal.oid db.nextId)]] :=
  ⟨rfl, rfl⟩

/-- Claim C4: a create request whose body is absent or lacks the key
"task" returns HTTP 400 and leaves the database state unchanged. -/
theorem claim_C4 (body : Option Doc) (db : DB)
    (h : body = none ∨ ∃ data, body = some data ∧ getVal data "task" = none) :
    (create_todo body db).1.status = 400 ∧ (create_todo body db).2 = db := by
  rcases h with rfl | ⟨data, rfl, hnone⟩
  · exact ⟨rfl, rfl⟩
  · by_cases hd : data = []
    · subst hd
      exact ⟨rfl, rfl⟩
    · simp [create_todo, if_neg hd, hnone, errResp]

theorem claim_C4_witness :
    (create_todo none (DB.mk [] 0)).1.status = 400 ∧
    (create_todo none (DB.mk [] 0)).2 = DB.mk [] 0 :=
  claim_C4 none (DB.mk [] 0) (Or.inl rfl)

/-- Claim C5: the startup initializer makes at most 10 connect-and-ping
attempts, sleeps a fixed 5 time-units after each failed attempt, raises
fatally with 50 time-units slept when all 10 attempts fail, and returns
on the first successful ping (after k failures it has slept 5k units and
used k+1 ≤ 10 attempts). -/
theorem claim_C5 (ping : Nat → Bool) :
    ((∀ i, i < 10 → ping i = false) → init_db ping = Except.error 50) ∧
    (∀ k, k < 10 → (∀ i, i < k → ping i = false) → ping k = true →
      init_db ping = Except.ok (k + 1, 5 * k) ∧ k + 1 ≤ 10) := by
  constructor
  · intro h
    have hall := initDbLoop_all_fail ping 10 0 0 (fun i _ h2 => h i (by omega))
    simpa [init_db] using hall
  · intro k hk hf ht
    refine ⟨?_, by omega⟩
    have hrun := initDbLoop_first_success ping 10 0 0 k (by omega) (by omega)
      (fun i _ h2 => hf i h2) ht
    simpa [init_db] using hrun

theorem claim_C5_witness :
    init_db (fun _ => false) = Except.error 50 ∧
    init_db (fun i => decide (i = 3)) = Except.ok (4, 15) := by
  constructor
  · exact (claim_C5 (fun _ => false)).1 (fun i _ => rfl)
  · have h := ((claim_C5 (fun i => decide (i = 3))).2 3 (by omega)
      (by decide) (by decide)).1
    simpa using h

/-- Claim C10: create and update validate only key presence, never values:
create accepts any JSON value for "task" (including the empty string,
null, a number or an object) with 201 and persists it verbatim, and
update applies any supplied value for "completed" (boolean or not)
without rejection, never answering 400. -/
theorem claim_C10 :
    (∀ (db : DB) (t : JVal),
        (create_todo (some [("task", t)]) db).1.status = 201 ∧
        (create_todo (some [("task", t)]) db).2.todos =
          db.todos ++ [[("task", t), ("completed", JVal.bool false),
                        ("_id", JVal.oid db.nextId)]]) ∧
    (∀ (todo_id : String) (oid : Nat) (db : DB) (v : JVal),
        parseObjectId todo_id = some oid →
        (update_todo todo_id (some [("completed", v)]) db).1.status ≠ 400 ∧
        (update_todo todo_id (some [("completed", v)]) db).2.todos =
          (updateList oid [("completed", v)] db.todos).1) ∧
    (∀ (todo_id : String) (oid : Nat) (db : DB) (v : JVal),
        parseObjectId todo_id = some oid →
        (update_todo todo_id (some [("task", v)]) db).1.status ≠ 400 ∧
        (update_todo todo_id (some [("task", v)]) db).2.todos =
          (updateList oid [("task", v)] db.todos).1) := by
  refine ⟨fun db t => ⟨rfl, rfl⟩, ?_, ?_⟩
  · intro todo_id oid db v hid
    have hne : ¬(([("completed", v)] : Doc) = []) := List.cons_ne_nil _ _
    have huf : updateFields [("completed", v)] = [("completed", v)] := rfl
    simp only [update_todo, update_one, huf, if_neg hne, hid]
    constructor
    · split
      · simp [errResp]
      · simp [msgResp]
    · split <;> rfl
  · intro todo_id oid db v hid
    have hne : ¬(([("task", v)] : Doc) = []) := List.cons_ne_nil _ _
    have huf : updateFields [("task", v)] = [("task", v)] := rfl
    simp only [update_todo, update_one, huf, if_neg hne, hid]
    constructor
    · split
      · simp [errResp]
      · simp [msgResp]
    · split <;> rfl

theorem claim_C10_witness :
    (update_todo "0" (some [("completed", JVal.int 7)])
        (DB.mk [[("task", JVal.str "a"), ("completed", JVal.bool false),
                 ("_id", JVal.oid 0)]] 1)).1.status ≠ 400 ∧
    (update_todo "0" (some [("completed", JVal.int 7)])
        (DB.mk [[("task", JVal.str "a"), ("completed", JVal.bool false),
                 ("_id", JVal.oid 0)]] 1)).2.todos =
      (updateList 0 [("completed", JVal.int 7)]
        (DB.mk [[("task", JVal.str "a"), ("completed", JVal.bool false),
                 ("_id", JVal.oid 0)]] 1).todos).1 :=
  claim_C10.2.1 "0" 0
    (DB.mk [[("task", JVal.str "a"), ("completed", JVal.bool false),
             ("_id", JVal.oid 0)]] 1) (JVal.int 7) (by decide)

/-- Claim C1: a PUT with a valid body on a well-formed identifier answers
HTTP 404 and modifies nothing, both when no document matches and when the
matching document already holds exactly the supplied values, so the
not-found and no-op outcomes are indistinguishable to the caller. -/
theorem claim_C1 (todo_id : String) (oid : Nat) (data : Doc) (db : DB)
    (hid : parseObjectId todo_id = some oid)
    (hne : data ≠ []) (huf : updateFields data ≠ [])
    (hcase : find_one db oid = none ∨
      ∃ d, find_one db oid = some d ∧ applySet d (updateFields data) = d) :
    (update_todo todo_id (some data) db).1 =
      errResp 404 "To-do item not found or no changes made" ∧
    (update_todo todo_id (some data) db).2 = db := by
  rcases hcase with hnone | ⟨d, hfind, hnoop⟩
  · have hul := updateList_of_find?_none oid (updateFields data) db.todos hnone
    simp only [update_todo, update_one, if_neg hne, if_neg huf, hid, hul]
    exact ⟨rfl, rfl⟩
  · have hul :=
      updateList_of_find?_noop oid (updateFields data) db.todos d hfind hnoop
    simp only [update_todo, update_one, if_neg hne, if_neg huf, hid, hul]
    exact ⟨rfl, rfl⟩

theorem claim_C1_witness :
    (update_todo "0" (some [("completed", JVal.bool false)])
        (DB.mk [[("task", JVal.str "a"), ("completed", JVal.bool false),
                 ("_id", JVal.oid 0)]] 1)).1 =
      errResp 404 "To-do item not found or no changes made" ∧
    (update_todo "0" (some [("completed", JVal.bool false)])
        (DB.mk [[("task", JVal.str "a"), ("completed", JVal.bool false),
                 ("_id", JVal.oid 0)]] 1)).2 =
      DB.mk [[("task", JVal.str "a"), ("completed", JVal.bool false),
              ("_id", JVal.oid 0)]] 1 :=
  claim_C1 "0" 0 [("completed", JVal.bool false)]
    (DB.mk [[("task", JVal.str "a"), ("completed", JVal.bool false),
             ("_id", JVal.oid 0)]] 1)
    (by decide) (by decide) (by decide)
    (Or.inr ⟨[("task", JVal.str "a"), ("completed", JVal.bool false),
              ("_id", JVal.oid 0)], by decide, by decide⟩)

/-- Claim C6: get-by-id answers 200 with the single matching remapped
record when the identifier parses and a document matches, 404 when the
identifier parses but nothing matches, and 500 (not 400) when the
identifier does not parse as a store identifier. -/
theorem claim_C6 (todo_id : String) (db : DB) :
    (parseObjectId todo_id = none → (get_todo todo_id db).status = 500) ∧
    (∀ oid, parseObjectId todo_id = some oid → find_one db oid = none →
      (get_todo todo_id db).status = 404) ∧
    (∀ oid d, parseObjectId todo_id = some oid → find_one db oid = some d →
      ∃ t, remapDoc d = some t ∧ get_todo todo_id db = ⟨200, JVal.obj t⟩) := by
  refine ⟨fun h => ?_, fun oid h1 h2 => ?_, fun oid d h1 h2 => ?_⟩
  · simp [get_todo, h, errResp]
  · simp [get_todo, h1, h2, errResp]
  · have hm : isMatch oid d = true := List.find?_some h2
    have hid2 : getVal d "_id" = some (JVal.oid oid) := by
      simpa [isMatch] using hm
    refine ⟨delKey (setVal d "id" (JVal.str (idStr (JVal.oid oid)))) "_id",
      ?_, ?_⟩
    · simp [remapDoc, hid2]
    · simp [get_todo, h1, h2, remapDoc, hid2]

theorem claim_C6_witness :
    (get_todo "zz" (DB.mk [[("task", JVal.str "a"),
        ("completed", JVal.bool false), ("_id", JVal.oid 0)]] 1)).status = 500 ∧
    (get_todo "1" (DB.mk [[("task", JVal.str "a"),
        ("completed", JVal.bool false), ("_id", JVal.oid 0)]] 1)).status = 404 ∧
    ∃ t, remapDoc [("task", JVal.str "a"), ("completed", JVal.bool false),
        ("_id", JVal.oid 0)] = some t ∧
      get_todo "0" (DB.mk [[("task", JVal.str "a"),
        ("completed", JVal.bool false), ("_id", JVal.oid 0)]] 1) =
        ⟨200, JVal.obj t⟩ :=
  ⟨(claim_C6 "zz" (DB.mk [[("task", JVal.str "a"),
      ("completed", JVal.bool false), ("_id", JVal.oid 0)]] 1)).1 (by decide),
   (claim_C6 "1" (DB.mk [[("task", JVal.str "a"),
      ("completed", JVal.bool false), ("_id", JVal.oid 0)]] 1)).2.1 1
      (by decide) (by decide),
   (claim_C6 "0" (DB.mk [[("task", JVal.str "a"),
      ("completed", JVal.bool false), ("_id", JVal.oid 0)]] 1)).2.2 0
      [("task", JVal.str "a"), ("completed", JVal.bool false),
       ("_id", JVal.oid 0)] (by decide) (by decide)⟩

/-- Claim C7: delete with a well-formed identifier removes the matching
document and answers 200 when one exists (leaving no match behind, so
the collection shrinks by one and a second delete of the same identifier
answers 404), and answers 404 with the state unchanged when no document
matches. -/
theorem claim_C7 (todo_id : String) (oid : Nat) (db : DB)
    (hid : parseObjectId todo_id = some oid)
    (huniq : (db.todos.filter (isMatch oid)).length ≤ 1) :
    (find_one db oid = none →
        (delete_todo todo_id db).1.status = 404 ∧
        (delete_todo todo_id db).2 = db) ∧
    (∀ d, find_one db oid = some d →
        (delete_todo todo_id db).1.status = 200 ∧
        (delete_todo todo_id db).2.todos.length + 1 = db.todos.length ∧
        find_one (delete_todo todo_id db).2 oid = none ∧
        (delete_todo todo_id (delete_todo todo_id db).2).1.status = 404) := by
  constructor
  · intro hnone
    have hdl := deleteList_of_find?_none oid db.todos hnone
    simp only [delete_todo, delete_one, hid, hdl]
    exact ⟨rfl, rfl⟩
  · intro d hfind
    obtain ⟨h1, h2, h3⟩ := deleteList_of_find?_some oid db.todos d hfind huniq
    have hres : delete_todo todo_id db =
        (msgResp "To-do item deleted successfully",
         ⟨(deleteList oid db.todos).1, db.nextId⟩) := by
      simp only [delete_todo, delete_one, hid, h1]
      rfl
    have hnone2 : (deleteList oid db.todos).1.find? (isMatch oid) = none :=
      List.find?_eq_none.mpr (fun x hx => by
        have hall := List.filter_eq_nil_iff.mp h3 x hx
        simpa using hall)
    refine ⟨by rw [hres]; rfl, by rw [hres]; exact h2, ?_, ?_⟩
    · rw [hres]
      exact hnone2
    · rw [hres]
      have hdl2 := deleteList_of_find?_none oid (deleteList oid db.todos).1 hnone2
      simp only [delete_todo, delete_one, hid, hdl2]
      rfl

theorem claim_C7_witness :
    (delete_todo "0" (DB.mk [[("task", JVal.str "a"),
        ("completed", JVal.bool false), ("_id", JVal.oid 0)]] 1)).1.status
      = 200 ∧
    (delete_todo "0" (DB.mk [[("task", JVal.str "a"),
        ("completed", JVal.bool false),
        ("_id", JVal.oid 0)]] 1)).2.todos.length + 1 =
      (DB.mk [[("task", JVal.str "a"), ("completed", JVal.bool false),
               ("_id", JVal.oid 0)]] 1).todos.length ∧
    find_one (delete_todo "0" (DB.mk [[("task", JVal.str "a"),
        ("completed", JVal.bool false), ("_id", JVal.oid 0)]] 1)).2 0 = none ∧
    (delete_todo "0" (delete_todo "0" (DB.mk [[("task", JVal.str "a"),
        ("completed", JVal.bool false),
        ("_id", JVal.oid 0)]] 1)).2).1.status = 404 :=
  (claim_C7 "0" 0 (DB.mk [[("task", JVal.str "a"),
      ("completed", JVal.bool false), ("_id", JVal.oid 0)]] 1)
    (by decide) (by decide)).2
    [("task", JVal.str "a"), ("completed", JVal.bool false),
     ("_id", JVal.oid 0)] (by decide)

/-- Claim C8: an update on an existing document rewrites exactly the first
matching document by applying the supplied fields, leaving every other
document untouched; on the rewritten document the identifier field "_id"
is unchanged, and any recognized field omitted from the body (task or
completed) retains its prior value. -/
theorem claim_C8 (todo_id : String) (oid : Nat) (data : Doc) (db : DB) (d : Doc)
    (hid : parseObjectId todo_id = some oid)
    (hne : data ≠ []) (huf : updateFields data ≠ [])
    (hfound : find_one db oid = some d) :
    ∃ l₁ l₂, db.todos = l₁ ++ d :: l₂ ∧ (∀ e ∈ l₁, isMatch oid e = false) ∧
      (update_todo todo_id (some data) db).2.todos =
        l₁ ++ applySet d (updateFields data) :: l₂ ∧
      getVal (applySet d (updateFields data)) "_id" = getVal d "_id" ∧
      (∀ k, k ≠ "task" → k ≠ "completed" →
        getVal (applySet d (updateFields data)) k = getVal d k) ∧
      (getVal data "task" = none →
        getVal (applySet d (updateFields data)) "task" = getVal d "task") ∧
      (getVal data "completed" = none →
        getVal (applySet d (updateFields data)) "completed" =
          getVal d "completed") := by
  obtain ⟨l₁, l₂, hsplit, hl₁, hupd⟩ :=
    updateList_split oid (updateFields data) db.todos d hfound
  have htodos : (update_todo todo_id (some data) db).2.todos =
      (updateList oid (updateFields data) db.todos).1 := by
    simp only [update_todo, update_one, if_neg hne, if_neg huf, hid]
    split <;> rfl
  refine ⟨l₁, l₂, hsplit, hl₁, htodos.trans hupd, ?_, ?_, ?_, ?_⟩
  · refine getVal_applySet_not_mem d (updateFields data) "_id" ?_
    intro kv hkv
    rcases updateFields_keys data kv hkv with h | h <;> rw [h] <;> decide
  · intro k hk1 hk2
    refine getVal_applySet_not_mem d (updateFields data) k ?_
    intro kv hkv
    rcases updateFields_keys data kv hkv with h | h <;> rw [h]
    · exact fun he => hk1 he.symm
    · exact fun he => hk2 he.symm
  · intro hn
    refine getVal_applySet_not_mem d (updateFields data) "task" ?_
    intro kv hkv
    rw [updateFields_of_task_none data hn kv hkv]
    decide
  · intro hn
    refine getVal_applySet_not_mem d (updateFields data) "completed" ?_
    intro kv hkv
    rw [updateFields_of_completed_none data hn kv hkv]
    decide

theorem claim_C8_witness :
    (update_todo "0" (some [("completed", JVal.bool true)])
        (DB.mk [[("task", JVal.str "a"), ("completed", JVal.bool false),
                 ("_id", JVal.oid 0)]] 1)).2.todos =
      [[("task", JVal.str "a"), ("completed", JVal.bool true),
        ("_id", JVal.oid 0)]] := by
  obtain ⟨l₁, l₂, hsplit, -, hupd, -, -, -, -⟩ :=
    claim_C8 "0" 0 [("completed", JVal.bool true)]
      (DB.mk [[("task", JVal.str "a"), ("completed", JVal.bool false),
               ("_id", JVal.oid 0)]] 1)
      [("task", JVal.str "a"), ("completed", JVal.bool false),
       ("_id", JVal.oid 0)]
      (by decide) (by decide) (by decide) (by decide)
  rcases l₁ with _ | ⟨e, l₁⟩
  · rcases l₂ with _ | ⟨f, l₂⟩
    · rw [hupd]
      decide
    · exfalso
      have hlen := congrArg List.length hsplit
      simp only [List.length_cons, List.length_append, List.length_nil] at hlen
      omega
  · exfalso
    have hlen := congrArg List.length hsplit
    simp only [List.length_cons, List.length_append, List.length_nil] at hlen
    omega

/-- Claim C9: the list operation answers 200 with every stored document,
each remapped to carry the external string field "id" in place of the
internal "_id"; for create-shaped documents the returned records carry
exactly the keys task, completed, id; and creating N items starting from
the empty store yields exactly N stored (create-shaped) documents. -/
theorem claim_C9 (db : DB)
    (hwf : ∀ d ∈ db.todos, d.map Prod.fst = ["task", "completed", "_id"]) :
    ((get_all_todos db).status = 200 ∧
     ∃ res, remapAll db.todos = some res ∧
       (get_all_todos db).body = JVal.arr (res.map JVal.obj) ∧
       res.length = db.todos.length ∧
       ∀ r ∈ res, r.map Prod.fst = ["task", "completed", "id"]) ∧
    ∀ ts : List JVal,
      (createAll ts (DB.mk [] 0)).todos.length = ts.length ∧
      ∀ d ∈ (createAll ts (DB.mk [] 0)).todos,
        d.map Prod.fst = ["task", "completed", "_id"] := by
  constructor
  · obtain ⟨res, hres, hlen, hkeys⟩ := remapAll_of_wf db.todos hwf
    exact ⟨by simp [get_all_todos, hres], res, hres,
      by simp [get_all_todos, hres], hlen, hkeys⟩
  · intro ts
    refine ⟨?_, createAll_wf ts (DB.mk [] 0) (by simp)⟩
    rw [createAll_todos_length]
    simp

theorem claim_C9_witness :
    (get_all_todos (DB.mk [[("task", JVal.str "a"),
        ("completed", JVal.bool false), ("_id", JVal.oid 0)]] 1)).status
      = 200 ∧
    (createAll [JVal.str "x", JVal.str "y"] (DB.mk [] 0)).todos.length = 2 := by
  constructor
  · exact ((claim_C9 (DB.mk [[("task", JVal.str "a"),
      ("completed", JVal.bool false), ("_id", JVal.oid 0)]] 1)
      (by decide)).1).1
  · have h := ((claim_C9 (DB.mk [] 0) (by simp)).2
      [JVal.str "x", JVal.str "y"]).1
    simpa using h

end TodoService
